import Mathlib

/-!
Shallow embedding of `src/script.js`: a per-frame physics integrator for
draggable icons (gravity, edge bounce with energy loss, pointer drag/flick),
together with the pointer-drag state machine (`startDrag`, `doDrag`,
`endDrag`) and the frame callback (`step`).

JavaScript numbers are modelled as rationals (`ℚ`); the global mutable
state (`bodies`, `lastTimestamp`, `activeBody`) is gathered into a
`SimState` record and every handler becomes a state-passing function.
DOM writes performed by the frame callback (`body.el.style.transform = ...`)
are modelled as an explicit list of `Write` records returned by `step`.
-/

namespace Tomy

/-- Gravitational acceleration, `const gravity = 0.4` (px/frame²). -/
def gravity : ℚ := 2/5

/-- Energy retention on bounce, `const bounceFactor = 0.6`. -/
def bounceFactor : ℚ := 3/5

/-- Horizontal friction on bottom bounce, `const friction = 0.98`. -/
def friction : ℚ := 49/50

/-- One physics body, mirroring the record built in `init` for each icon.
The opaque DOM element `el` is modelled as a numeric identifier. -/
structure Body where
  el : Nat
  x : ℚ
  y : ℚ
  vx : ℚ
  vy : ℚ
  width : ℚ
  height : ℚ
  dragging : Bool
  dragOffsetX : ℚ
  dragOffsetY : ℚ
  lastPointerPosX : ℚ
  lastPointerPosY : ℚ
  vxPointer : ℚ
  vyPointer : ℚ
deriving Repr, DecidableEq

/-- One DOM transform write `el.style.transform = translate(x px, y px)`. -/
structure Write where
  el : Nat
  x : ℚ
  y : ℚ
deriving Repr, DecidableEq

/-- The script's module-level mutable state: the `bodies` array, the
`lastTimestamp` baseline (null before the first frame) and the `activeBody`
reference of the drag controller (modelled as an index into `bodies`). -/
structure SimState where
  bodies : List Body
  lastTimestamp : Option ℚ
  activeBody : Option Nat
deriving Repr, DecidableEq

/-- The per-body block of the frame callback (`step`, lines 121–146 of
`src/script.js`): skipped when `body.dragging`; otherwise gravity, Euler
position update, left/right collision (else-if), top collision, then bottom
collision with friction. -/
def stepBody (dt maxX maxY : ℚ) (body : Body) : Body :=
  if !body.dragging then
    -- Apply gravity
    let b1 := { body with vy := body.vy + gravity * dt }
    -- Update positions
    let b2 := { b1 with x := b1.x + b1.vx * dt, y := b1.y + b1.vy * dt }
    -- Left and right collision
    let b3 :=
      if b2.x < 0 then
        { b2 with x := 0, vx := -b2.vx * bounceFactor }
      else if b2.x + b2.width > maxX then
        { b2 with x := maxX - b2.width, vx := -b2.vx * bounceFactor }
      else b2
    -- Top collision
    let b4 :=
      if b3.y < 0 then
        { b3 with y := 0, vy := -b3.vy * bounceFactor }
      else b3
    -- Bottom collision
    let b5 :=
      if b4.y + b4.height > maxY then
        { b4 with y := maxY - b4.height, vy := -b4.vy * bounceFactor,
                  vx := b4.vx * friction }
      else b4
    b5
  else body

/-- The frame callback `step(timestamp)`.  `if (!lastTimestamp) lastTimestamp
= timestamp` is modelled with JavaScript falsiness (`null` or `0`); `dt`
normalizes elapsed milliseconds to 60fps frames by dividing by 16.7.  Every
body, dragging or not, gets its transform written afterwards; the writes are
returned alongside the new state. -/
def step (timestamp maxX maxY : ℚ) (s : SimState) : SimState × List Write :=
  let last : ℚ :=
    match s.lastTimestamp with
    | none => timestamp
    | some t => if t = 0 then timestamp else t
  let dt := (timestamp - last) / (167/10)
  let newBodies := s.bodies.map (stepBody dt maxX maxY)
  ({ s with bodies := newBodies, lastTimestamp := some timestamp },
   newBodies.map fun b => ⟨b.el, b.x, b.y⟩)

/-- `startDrag(e, body)` for a pointer at `pos` going down on body `i`:
marks it dragging, captures the drag offset, zeroes both velocities,
records the pointer position, and overwrites the global `activeBody`. -/
def startDrag (pos : ℚ × ℚ) (i : Nat) (s : SimState) : SimState :=
  match s.bodies.get? i with
  | none => s
  | some body =>
    { s with
      bodies := s.bodies.set i
        { body with
          dragging := true,
          dragOffsetX := pos.1 - body.x,
          dragOffsetY := pos.2 - body.y,
          vx := 0, vy := 0,
          vxPointer := 0, vyPointer := 0,
          lastPointerPosX := pos.1, lastPointerPosY := pos.2 },
      activeBody := some i }

/-- `doDrag(e)`: returns unchanged when `activeBody` is null; otherwise, if
the active body is dragging, moves it with the pointer (no clamping) and
records the one-sample pointer velocity. -/
def doDrag (pos : ℚ × ℚ) (s : SimState) : SimState :=
  match s.activeBody with
  | none => s
  | some i =>
    match s.bodies.get? i with
    | none => s
    | some body =>
      if body.dragging then
        { s with
          bodies := s.bodies.set i
            { body with
              x := pos.1 - body.dragOffsetX,
              y := pos.2 - body.dragOffsetY,
              vxPointer := pos.1 - body.lastPointerPosX,
              vyPointer := pos.2 - body.lastPointerPosY,
              lastPointerPosX := pos.1, lastPointerPosY := pos.2 } }
      else s

/-- `endDrag(e)`: returns unchanged when `activeBody` is null; otherwise, if
the active body is dragging, clears the flag, copies the pointer velocity
into the launch velocity, and nulls `activeBody`. -/
def endDrag (s : SimState) : SimState :=
  match s.activeBody with
  | none => s
  | some i =>
    match s.bodies.get? i with
    | none => s
    | some body =>
      if body.dragging then
        { s with
          bodies := s.bodies.set i
            { body with
              dragging := false,
              vx := body.vxPointer,
              vy := body.vyPointer },
          activeBody := none }
      else s

/-- A complete drag session on body `i`: pointer-down at `down`, a sequence
of pointer-move events, then pointer-up. -/
def dragSession (down : ℚ × ℚ) (moves : List (ℚ × ℚ)) (i : Nat)
    (s : SimState) : SimState :=
  endDrag (moves.foldl (fun st p => doDrag p st) (startDrag down i s))

/-- Example body used by several witnesses: not dragging, inside an
800 × 600 viewport, falling. -/
def sampleBody : Body :=
  { el := 1, x := 100, y := 200, vx := 3, vy := 5, width := 80, height := 80,
    dragging := false, dragOffsetX := 0, dragOffsetY := 0,
    lastPointerPosX := 0, lastPointerPosY := 0, vxPointer := 0, vyPointer := 0 }

/-- C7: for every body with `dragging = true`, the integrator leaves its
`x`, `y`, `vx`, `vy` (indeed the whole record) unchanged: no gravity and no
boundary clamping are applied, regardless of its position value. -/
theorem drag_bypass (dt maxX maxY : ℚ) (b : Body) (hd : b.dragging = true) :
    stepBody dt maxX maxY b = b := by
  simp [stepBody, hd]

/-- Witness for C7 at a dragged body whose position is far outside the
viewport bounds. -/
theorem drag_bypass_witness :
    stepBody 1 800 600 { sampleBody with x := -500, y := 10000, dragging := true }
      = { sampleBody with x := -500, y := 10000, dragging := true } :=
  drag_bypass 1 800 600 _ rfl

/-- C3: for every body with `dragging = false` and a viewport at least as
large as the body, after one integration step the position satisfies
`0 ≤ x ≤ maxX - width` and `0 ≤ y ≤ maxY - height`. -/
theorem boundary_containment (dt maxX maxY : ℚ) (b : Body)
    (hd : b.dragging = false) (hw : b.width ≤ maxX) (hh : b.height ≤ maxY) :
    0 ≤ (stepBody dt maxX maxY b).x ∧
    (stepBody dt maxX maxY b).x ≤ maxX - b.width ∧
    0 ≤ (stepBody dt maxX maxY b).y ∧
    (stepBody dt maxX maxY b).y ≤ maxY - b.height := by
  simp only [stepBody, hd]
  split_ifs <;> simp_all <;> (repeat' apply And.intro) <;> linarith

/-- Witness for C3: the sample body in an 800 × 600 viewport. -/
theorem boundary_containment_witness :
    0 ≤ (stepBody 1 800 600 sampleBody).x ∧
    (stepBody 1 800 600 sampleBody).x ≤ 800 - sampleBody.width ∧
    0 ≤ (stepBody 1 800 600 sampleBody).y ∧
    (stepBody 1 800 600 sampleBody).y ≤ 600 - sampleBody.height :=
  boundary_containment 1 800 600 sampleBody rfl (by norm_num [sampleBody])
    (by norm_num [sampleBody])

/-- C9: a pointer-move or pointer-up event delivered while `activeBody` is
null leaves the state completely unchanged (a no-op, not a fault). -/
theorem no_active_noop (pos : ℚ × ℚ) (s : SimState)
    (h : s.activeBody = none) : doDrag pos s = s ∧ endDrag s = s := by
  constructor <;> simp [doDrag, endDrag, h]

/-- Witness for C9 at a concrete state with one body and no active drag. -/
theorem no_active_noop_witness :
    doDrag (7, 9) ⟨[sampleBody], some 16, none⟩ = ⟨[sampleBody], some 16, none⟩ ∧
    endDrag ⟨[sampleBody], some 16, none⟩ = ⟨[sampleBody], some 16, none⟩ :=
  no_active_noop (7, 9) _ rfl

/-- State as of the very first scheduled frame (`lastTimestamp = null`),
holding one body that still sits above the viewport, the way `init`
places every icon (`startY = -Math.random() * 200 - rect.height`). -/
def firstFrameState : SimState := ⟨[{ sampleBody with y := -100 }], none, none⟩

/-- Counterexample to C1 as stated: on the very first frame (no prior
timestamp), a body starting at `y = -100` is moved to `y = 0` by the
top-collision clamp, so its position does not change by 0 for every
starting position. -/
theorem first_frame_jump_counterexample :
    (firstFrameState.bodies.map Body.y = [-100] ∧
      ((step 500 800 600 firstFrameState).1.bodies.map Body.y = [0])) ∧
    (0 : ℚ) ≠ -100 := by
  refine ⟨⟨rfl, ?_⟩, by norm_num⟩
  norm_num [step, stepBody, firstFrameState, sampleBody, gravity, bounceFactor]

/-- C1 as amended: on the very first scheduled frame (`lastTimestamp` is
null, so the elapsed time is zero), a body's position changes by 0 provided
its starting position lies within the viewport bounds; out-of-bounds
starting positions are still clamped by the collision checks. -/
theorem first_frame_no_jump (ts maxX maxY : ℚ) (s : SimState) (i : ℕ)
    (b : Body) (hlast : s.lastTimestamp = none)
    (hb : s.bodies.get? i = some b)
    (hx0 : 0 ≤ b.x) (hx1 : b.x + b.width ≤ maxX)
    (hy0 : 0 ≤ b.y) (hy1 : b.y + b.height ≤ maxY) :
    ∃ b', (step ts maxX maxY s).1.bodies.get? i = some b' ∧
      b'.x = b.x ∧ b'.y = b.y := by
  have hdt : (ts - ts) / ((167 : ℚ)/10) = 0 := by norm_num
  refine ⟨stepBody ((ts - ts) / ((167 : ℚ)/10)) maxX maxY b, ?_, ?_⟩
  · have hb' : s.bodies[i]? = some b := by
      rwa [List.get?_eq_getElem?] at hb
    simp [step, hlast, List.get?_eq_getElem?, List.getElem?_map, hb']
  · rw [hdt]
    cases hd : b.dragging
    · simp only [stepBody, hd, Bool.not_false, if_true, mul_zero, add_zero]
      split_ifs <;> simp_all <;> linarith
    · simp [stepBody, hd]

/-- Witness for C1's amended theorem: a one-body state with no prior
timestamp and an in-bounds body keeps its position on the first frame. -/
theorem first_frame_no_jump_witness :
    ∃ b', (step 500 800 600 ⟨[sampleBody], none, none⟩).1.bodies.get? 0
        = some b' ∧ b'.x = sampleBody.x ∧ b'.y = sampleBody.y :=
  first_frame_no_jump 500 800 600 ⟨[sampleBody], none, none⟩ 0 sampleBody
    rfl rfl (by norm_num [sampleBody]) (by norm_num [sampleBody])
    (by norm_num [sampleBody]) (by norm_num [sampleBody])

/-- C8: in an integration step where the body bounces off the left or right
wall but touches neither the top nor the bottom edge, `vy` changes only by
gravity (no collision term) and `vx` is only reflected (`-vx * bounceFactor`)
with no friction multiplier. -/
theorem friction_isolation (dt maxX maxY : ℚ) (b : Body)
    (hd : b.dragging = false)
    (hside : b.x + b.vx * dt < 0 ∨
      (0 ≤ b.x + b.vx * dt ∧ maxX < b.x + b.vx * dt + b.width))
    (htop : 0 ≤ b.y + (b.vy + gravity * dt) * dt)
    (hbot : b.y + (b.vy + gravity * dt) * dt + b.height ≤ maxY) :
    (stepBody dt maxX maxY b).vy = b.vy + gravity * dt ∧
    (stepBody dt maxX maxY b).vx = -b.vx * bounceFactor := by
  simp only [stepBody, hd]
  rcases hside with h | ⟨h1, h2⟩ <;> split_ifs <;> simp_all <;> linarith

/-- Witness for C8: a body moving left at `vx = -10` from `x = 2` hits the
left wall this step, stays clear of top and bottom, and comes out with
`vy = vy + gravity` and `vx = -vx * bounceFactor` (no friction). -/
theorem friction_isolation_witness :
    (stepBody 1 800 600 { sampleBody with x := 2, vx := -10, vy := 0 }).vy
        = ({ sampleBody with x := 2, vx := -10, vy := 0 } : Body).vy
          + gravity * 1 ∧
    (stepBody 1 800 600 { sampleBody with x := 2, vx := -10, vy := 0 }).vx
        = -({ sampleBody with x := 2, vx := -10, vy := 0 } : Body).vx
          * bounceFactor :=
  friction_isolation 1 800 600 _ rfl
    (Or.inl (by norm_num [sampleBody]))
    (by norm_num [sampleBody, gravity])
    (by norm_num [sampleBody, gravity])

/-- Two free bodies, neither dragging, used to exercise the second
pointer-down scenario. -/
def twoBodies : SimState := ⟨[sampleBody, { sampleBody with el := 2 }], none, none⟩

/-- C2 evaluated at the failing input: a pointer-down on body 0 followed by
a pointer-down on body 1 leaves BOTH bodies with `dragging = true` (the
global `activeBody` reference is silently overwritten and the first body is
never released), violating the at-most-one-dragging invariant. -/
theorem second_pointer_down_double_drag :
    ((startDrag (20, 20) 1 (startDrag (5, 5) 0 twoBodies)).bodies.map
        Body.dragging) = [true, true] ∧
    (startDrag (20, 20) 1 (startDrag (5, 5) 0 twoBodies)).activeBody
        = some 1 := by
  constructor <;> rfl

/-- Unfolding of `startDrag` when body `i` exists. -/
theorem startDrag_eq (pos : ℚ × ℚ) (i : Nat) (s : SimState) (b : Body)
    (hb : s.bodies.get? i = some b) :
    startDrag pos i s =
      { s with
        bodies := s.bodies.set i
          { b with
            dragging := true,
            dragOffsetX := pos.1 - b.x, dragOffsetY := pos.2 - b.y,
            vx := 0, vy := 0, vxPointer := 0, vyPointer := 0,
            lastPointerPosX := pos.1, lastPointerPosY := pos.2 },
        activeBody := some i } := by
  unfold startDrag
  rw [hb]

/-- Unfolding of `doDrag` when the active body exists and is dragging. -/
theorem doDrag_eq_of_dragging (pos : ℚ × ℚ) (i : Nat) (s : SimState)
    (b : Body) (ha : s.activeBody = some i)
    (hb : s.bodies.get? i = some b) (hd : b.dragging = true) :
    doDrag pos s =
      { s with
        bodies := s.bodies.set i
          { b with
            x := pos.1 - b.dragOffsetX, y := pos.2 - b.dragOffsetY,
            vxPointer := pos.1 - b.lastPointerPosX,
            vyPointer := pos.2 - b.lastPointerPosY,
            lastPointerPosX := pos.1, lastPointerPosY := pos.2 } } := by
  have hb' : s.bodies[i]? = some b := by
    rwa [List.get?_eq_getElem?] at hb
  simp [doDrag, ha, hb', hd]

/-- Unfolding of `endDrag` when the active body exists and is dragging. -/
theorem endDrag_eq_of_dragging (i : Nat) (s : SimState) (b : Body)
    (ha : s.activeBody = some i) (hb : s.bodies.get? i = some b)
    (hd : b.dragging = true) :
    endDrag s =
      { s with
        bodies := s.bodies.set i
          { b with
            dragging := false, vx := b.vxPointer, vy := b.vyPointer },
        activeBody := none } := by
  have hb' : s.bodies[i]? = some b := by
    rwa [List.get?_eq_getElem?] at hb
  simp [endDrag, ha, hb', hd]

/-- C10: a pointer-down immediately followed by a pointer-up with no
intervening pointer-move leaves the body with launch velocity exactly
`(0, 0)` and `dragging = false`: `startDrag` zeroes `vxPointer`/`vyPointer`
and `endDrag` copies them into `vx`/`vy`. -/
theorem release_without_move_zero_velocity (pos : ℚ × ℚ) (i : Nat)
    (s : SimState) (b : Body) (hb : s.bodies.get? i = some b) :
    ∃ b', (endDrag (startDrag pos i s)).bodies.get? i = some b' ∧
      b'.vx = 0 ∧ b'.vy = 0 ∧ b'.dragging = false := by
  obtain ⟨hi, -⟩ := List.get?_eq_some.mp hb
  rw [startDrag_eq pos i s b hb]
  rw [endDrag_eq_of_dragging i _ _ rfl (List.get?_set_eq_of_lt _ hi) rfl]
  exact ⟨_, List.get?_set_eq_of_lt _ (by simpa using hi), rfl, rfl, rfl⟩

/-- Witness for C10: tapping body 0 of a one-body state without moving
releases it with velocity `(0, 0)`. -/
theorem release_without_move_zero_velocity_witness :
    ∃ b', (endDrag (startDrag (50, 60) 0 ⟨[sampleBody], none, none⟩)).bodies.get? 0
        = some b' ∧ b'.vx = 0 ∧ b'.vy = 0 ∧ b'.dragging = false :=
  release_without_move_zero_velocity (50, 60) 0 ⟨[sampleBody], none, none⟩
    sampleBody rfl

/-- A body currently being dragged, parked outside the viewport. -/
def draggedBody : Body :=
  { sampleBody with el := 7, x := -5, y := -6, dragging := true }

/-- State holding only `draggedBody`, mid-drag. -/
def draggedState : SimState := ⟨[draggedBody], some 100, some 0⟩

/-- Counterexample to C4 as stated: a frame callback DOES write the visual
element of a dragging body — the transform write sits outside the
`if (!body.dragging)` guard, so the writes list of `step` contains an entry
for the dragged body instead of being empty. -/
theorem dragging_write_counterexample :
    (step 200 800 600 draggedState).2 = [⟨7, -5, -6⟩] ∧
    ([⟨7, -5, -6⟩] : List Write) ≠ [] := by
  exact ⟨rfl, by simp⟩

/-- C4 as amended: for a body with `dragging = true`, the frame callback
skips the physics update entirely (steps 1–6: the body record is returned
unchanged), but step 7 still runs: the body's current `(x, y)` is written
to its visual element, as it is for every body. -/
theorem drag_physics_skipped_but_transform_written (ts maxX maxY : ℚ)
    (s : SimState) (i : Nat) (b : Body)
    (hb : s.bodies.get? i = some b) (hd : b.dragging = true) :
    (step ts maxX maxY s).1.bodies.get? i = some b ∧
    (step ts maxX maxY s).2.get? i = some ⟨b.el, b.x, b.y⟩ := by
  have hb' : s.bodies[i]? = some b := by
    rwa [List.get?_eq_getElem?] at hb
  constructor <;>
    simp [step, List.get?_eq_getElem?, List.getElem?_map, hb', stepBody, hd]

/-- Witness for C4's amended theorem at the concrete dragged state. -/
theorem drag_physics_skipped_but_transform_written_witness :
    (step 200 800 600 draggedState).1.bodies.get? 0 = some draggedBody ∧
    (step 200 800 600 draggedState).2.get? 0
        = some ⟨draggedBody.el, draggedBody.x, draggedBody.y⟩ :=
  drag_physics_skipped_but_transform_written 200 800 600 draggedState 0
    draggedBody rfl rfl

/-- Effect of a nonempty run of pointer-move events on the active dragged
body: after the moves `ps ++ [p]`, the pointer velocity is the one-sample
delta between the final move `p` and the move before it (or the position
recorded before the run when `ps` is empty). -/
theorem doDrag_foldl (i : Nat) (ps : List (ℚ × ℚ)) (p : ℚ × ℚ) :
    ∀ (s : SimState) (b : Body), s.activeBody = some i →
      s.bodies.get? i = some b → b.dragging = true →
      ∃ b', (List.foldl (fun st q => doDrag q st) s (ps ++ [p])).activeBody
            = some i ∧
        (List.foldl (fun st q => doDrag q st) s (ps ++ [p])).bodies.get? i
            = some b' ∧
        b'.dragging = true ∧
        b'.vxPointer
            = p.1 - (ps.getLastD (b.lastPointerPosX, b.lastPointerPosY)).1 ∧
        b'.vyPointer
            = p.2 - (ps.getLastD (b.lastPointerPosX, b.lastPointerPosY)).2 := by
  induction ps with
  | nil =>
    intro s b ha hb hd
    obtain ⟨hi, -⟩ := List.get?_eq_some.mp hb
    simp only [List.nil_append, List.foldl_cons, List.foldl_nil]
    rw [doDrag_eq_of_dragging p i s b ha hb hd]
    exact ⟨_, ha, List.get?_set_eq_of_lt _ hi, hd, rfl, rfl⟩
  | cons q ps ih =>
    intro s b ha hb hd
    obtain ⟨hi, -⟩ := List.get?_eq_some.mp hb
    simp only [List.cons_append, List.foldl_cons]
    rw [doDrag_eq_of_dragging q i s b ha hb hd]
    obtain ⟨b', h1, h2, h3, h4, h5⟩ :=
      ih
        { s with
          bodies := s.bodies.set i
            { b with
              x := q.1 - b.dragOffsetX, y := q.2 - b.dragOffsetY,
              vxPointer := q.1 - b.lastPointerPosX,
              vyPointer := q.2 - b.lastPointerPosY,
              lastPointerPosX := q.1, lastPointerPosY := q.2 } }
        { b with
          x := q.1 - b.dragOffsetX, y := q.2 - b.dragOffsetY,
          vxPointer := q.1 - b.lastPointerPosX,
          vyPointer := q.2 - b.lastPointerPosY,
          lastPointerPosX := q.1, lastPointerPosY := q.2 }
        ha (List.get?_set_eq_of_lt _ hi) hd
    refine ⟨b', h1, h2, h3, ?_, ?_⟩
    · rw [List.getLastD_cons]; exact h4
    · rw [List.getLastD_cons]; exact h5

/-- C6: for every drag session with at least one pointer-move, the launch
velocity copied into `(vx, vy)` at pointer-up equals the one-sample delta
between the last two pointer positions (pointer-down position included when
there was exactly one move), not an average of all deltas. -/
theorem velocity_handoff (s : SimState) (i : Nat) (b : Body)
    (down p : ℚ × ℚ) (ps : List (ℚ × ℚ))
    (hb : s.bodies.get? i = some b) :
    ∃ b', (dragSession down (ps ++ [p]) i s).bodies.get? i = some b' ∧
      b'.dragging = false ∧
      b'.vx = p.1 - (ps.getLastD down).1 ∧
      b'.vy = p.2 - (ps.getLastD down).2 := by
  unfold dragSession
  rw [startDrag_eq down i s b hb]
  obtain ⟨hi, -⟩ := List.get?_eq_some.mp hb
  obtain ⟨b1, h1, h2, h3, h4, h5⟩ :=
    doDrag_foldl i ps p
      { s with
        bodies := s.bodies.set i
          { b with
            dragging := true,
            dragOffsetX := down.1 - b.x, dragOffsetY := down.2 - b.y,
            vx := 0, vy := 0, vxPointer := 0, vyPointer := 0,
            lastPointerPosX := down.1, lastPointerPosY := down.2 },
        activeBody := some i }
      { b with
        dragging := true,
        dragOffsetX := down.1 - b.x, dragOffsetY := down.2 - b.y,
        vx := 0, vy := 0, vxPointer := 0, vyPointer := 0,
        lastPointerPosX := down.1, lastPointerPosY := down.2 }
      rfl (List.get?_set_eq_of_lt _ hi) rfl
  obtain ⟨hi1, -⟩ := List.get?_eq_some.mp h2
  rw [endDrag_eq_of_dragging i _ b1 h1 h2 h3]
  refine ⟨_, List.get?_set_eq_of_lt _ hi1, rfl, ?_, ?_⟩
  · show b1.vxPointer = _
    rw [h4]
  · show b1.vyPointer = _
    rw [h5]

/-- Witness for C6: the spec's example, pointer-down at `(0,0)` then moves
through `(10,10)`, `(15,12)`, `(25,20)` and release, yields launch velocity
`(10, 8)` — the last delta, not an average. -/
theorem velocity_handoff_witness :
    ∃ b', (dragSession (0, 0) [(10, 10), (15, 12), (25, 20)] 0
        ⟨[sampleBody], none, none⟩).bodies.get? 0 = some b' ∧
      b'.dragging = false ∧ b'.vx = 10 ∧ b'.vy = 8 := by
  obtain ⟨b', h1, h2, h3, h4⟩ :=
    velocity_handoff ⟨[sampleBody], none, none⟩ 0 sampleBody (0, 0) (25, 20)
      [(10, 10), (15, 12)] rfl
  refine ⟨b', h1, h2, ?_, ?_⟩
  · rw [h3]; norm_num
  · rw [h4]; norm_num

/-- A body resting on the bottom edge of an 800 × 600 viewport at the exact
fixed point of the bounce dynamics for `dt = 1`: `vy = -3/20`. -/
def restingBody : Body := { sampleBody with x := 100, y := 520, vx := 0, vy := -(3/20) }

/-- Counterexample to C5 as stated: `restingBody` is an exact fixed point of
the integration step — it hits the bottom edge every frame (never side or
top, never dragged) yet the magnitude of `vy` at successive bottom contacts
is constantly `3/20`, so it does not converge toward 0, and the peak height
between contacts is constant rather than strictly decreasing. -/
theorem bounce_decay_counterexample :
    stepBody 1 800 600 restingBody = restingBody ∧
    restingBody.dragging = false ∧
    restingBody.y + (restingBody.vy + gravity * 1) * 1 + restingBody.height
        > 600 ∧
    restingBody.vy = -(3/20) ∧ ¬ (3/20 : ℚ) = 0 := by
  refine ⟨?_, rfl, by norm_num [restingBody, sampleBody, gravity], rfl,
    by norm_num⟩
  norm_num [stepBody, restingBody, sampleBody, gravity, bounceFactor, friction]

/-- One integration step in the resting regime: a non-dragging body with
`vx = 0`, sitting exactly on the bottom edge with small upward-bounded
`vy ∈ (-gravity·dt, 0]`, bounces off the bottom again and comes back to the
bottom edge with `vy` mapped affinely. -/
theorem stepBody_rest (maxX maxY : ℚ) (b : Body) (hd : b.dragging = false)
    (hvx : b.vx = 0) (hx0 : 0 ≤ b.x) (hx1 : b.x + b.width ≤ maxX)
    (hh0 : 0 ≤ b.height) (hh1 : b.height ≤ maxY)
    (hy : b.y = maxY - b.height) (hv0 : -(2/5) < b.vy) (hv1 : b.vy ≤ 0) :
    stepBody 1 maxX maxY b
      = { b with y := maxY - b.height, vy := -(b.vy + 2/5) * (3/5),
                 vx := 0 } := by
  simp only [stepBody, hd, Bool.not_false, if_true, gravity, bounceFactor,
    friction]
  rw [hvx, hy]
  norm_num
  split_ifs with h1 h2 h3 h4 <;>
    first
      | (exfalso; linarith)
      | (simp [Body.mk.injEq] <;> ring_nf)

/-- C5 as amended: in the resting regime (non-dragging body with `vx = 0`
on the bottom edge, `-gravity < vy ≤ 0`, `dt = 1`) every integration step
produces another bottom contact at the same height (peak heights are
constant, not strictly decreasing) and `vy` obeys
`vy(n) + 3/20 = (-3/5)^n (vy(0) + 3/20)`, so `|vy|` at successive bottom
contacts converges geometrically to the positive limit `3/20`
(`= bounceFactor·gravity·dt / (1 + bounceFactor)`), not to 0; in
particular it stays bounded and does not diverge. -/
theorem bounce_rest_convergence (maxX maxY : ℚ) (b : Body)
    (hd : b.dragging = false) (hvx : b.vx = 0)
    (hx0 : 0 ≤ b.x) (hx1 : b.x + b.width ≤ maxX)
    (hh0 : 0 ≤ b.height) (hh1 : b.height ≤ maxY)
    (hy : b.y = maxY - b.height) (hv0 : -(2/5) < b.vy) (hv1 : b.vy ≤ 0)
    (n : ℕ) :
    ((stepBody 1 maxX maxY)^[n] b).dragging = false ∧
    ((stepBody 1 maxX maxY)^[n] b).vx = 0 ∧
    ((stepBody 1 maxX maxY)^[n] b).x = b.x ∧
    ((stepBody 1 maxX maxY)^[n] b).width = b.width ∧
    ((stepBody 1 maxX maxY)^[n] b).height = b.height ∧
    ((stepBody 1 maxX maxY)^[n] b).y = maxY - b.height ∧
    -(2/5) < ((stepBody 1 maxX maxY)^[n] b).vy ∧
    ((stepBody 1 maxX maxY)^[n] b).vy ≤ 0 ∧
    ((stepBody 1 maxX maxY)^[n] b).vy + 3/20
        = (-(3/5))^n * (b.vy + 3/20) := by
  induction n with
  | zero =>
    refine ⟨hd, hvx, rfl, rfl, rfl, ?_, hv0, hv1, ?_⟩
    · simpa using hy
    · simp
  | succ n ih =>
    obtain ⟨ih1, ih2, ih3, ih4, ih5, ih6, ih7, ih8, ih9⟩ := ih
    rw [Function.iterate_succ_apply']
    rw [stepBody_rest maxX maxY _ ih1 ih2
      (by rw [ih3]; exact hx0)
      (by rw [ih3, ih4]; exact hx1)
      (by rw [ih5]; exact hh0)
      (by rw [ih5]; exact hh1)
      (by rw [ih6, ih5])
      ih7 ih8]
    refine ⟨ih1, rfl, ih3, ih4, ih5, by rw [ih5], ?_, ?_, ?_⟩
    · show -(2/5) < -(((stepBody 1 maxX maxY)^[n] b).vy + 2/5) * (3/5)
      linarith
    · show -(((stepBody 1 maxX maxY)^[n] b).vy + 2/5) * (3/5) ≤ 0
      nlinarith
    · show -(((stepBody 1 maxX maxY)^[n] b).vy + 2/5) * (3/5) + 3/20
          = (-(3/5))^(n+1) * (b.vy + 3/20)
      rw [pow_succ]
      nlinarith [ih9]

/-- A body dropped exactly onto the bottom edge of an 800 × 600 viewport
with zero velocity. -/
def droppedBody : Body := { sampleBody with x := 100, y := 520, vx := 0, vy := 0 }

/-- Witness for C5's amended theorem: `droppedBody` after two steps
satisfies the stated conjunction. -/
theorem bounce_rest_convergence_witness :
    ((stepBody 1 800 600)^[2] droppedBody).dragging = false ∧
    ((stepBody 1 800 600)^[2] droppedBody).vx = 0 ∧
    ((stepBody 1 800 600)^[2] droppedBody).x = droppedBody.x ∧
    ((stepBody 1 800 600)^[2] droppedBody).width = droppedBody.width ∧
    ((stepBody 1 800 600)^[2] droppedBody).height = droppedBody.height ∧
    ((stepBody 1 800 600)^[2] droppedBody).y = 600 - droppedBody.height ∧
    -(2/5) < ((stepBody 1 800 600)^[2] droppedBody).vy ∧
    ((stepBody 1 800 600)^[2] droppedBody).vy ≤ 0 ∧
    ((stepBody 1 800 600)^[2] droppedBody).vy + 3/20
        = (-(3/5))^2 * (droppedBody.vy + 3/20) :=
  bounce_rest_convergence 800 600 droppedBody rfl rfl
    (by norm_num [droppedBody, sampleBody]) (by norm_num [droppedBody, sampleBody])
    (by norm_num [droppedBody, sampleBody]) (by norm_num [droppedBody, sampleBody])
    (by norm_num [droppedBody, sampleBody]) (by norm_num [droppedBody, sampleBody])
    (by norm_num [droppedBody, sampleBody]) 2

end Tomy
